import Mathlib

/-!
Verification of the `conradstorz/utilities` file-handling and log-handling
helpers against their natural-language specification.

The Python modules `cfsiv_utils/filehandling.py` and `cfsiv_utils/log_handling.py`
are shallowly embedded below.  Filesystem state is explicit: a `FS` value records
the current working directory, the set of regular files (with their data and
modification time) and the set of directories.  Python dynamic values that flow
into the functions under scrutiny are modelled by `PyVal`, and Python exceptions
by `PyErr`; a stateful call returns the resulting filesystem together with an
`Except PyErr` outcome.  The unbounded collision-resolution loop is given fuel;
`none` means the loop did not return within the supplied fuel.
-/

/-- A pathlib-style path: an absolute-or-relative flag plus the list of
non-empty components. -/
structure PPath where
  absolute : Bool
  parts : List String
deriving DecidableEq, Repr

/-- Split a character list on the separator, keeping empty groups. -/
def splitSlashList : List Char → List (List Char)
  | [] => [[]]
  | c :: rest =>
      let r := splitSlashList rest
      if c = '/' then [] :: r
      else
        match r with
        | [] => [[c]]
        | g :: gs => (c :: g) :: gs

/-- Components of a path string: split on the separator and drop empty parts,
the way pathlib normalises repeated separators. -/
def splitSlash (s : String) : List String :=
  ((splitSlashList s.toList).filter (fun l => !l.isEmpty)).map String.mk

/-- Model of the pathlib constructor on one string. -/
def pathFromString (s : String) : PPath :=
  { absolute := match s.toList with
                | '/' :: _ => true
                | _ => false,
    parts := splitSlash s }

/-- Final component of a path, the pathlib `name` attribute. -/
def PPath.name (p : PPath) : String := p.parts.getLastD ""

/-- Replace the final component, the pathlib `with_name` method. -/
def PPath.with_name (p : PPath) (s : String) : PPath :=
  { p with parts := p.parts.dropLast ++ [s] }

/-- Index of the dot that separates stem from suffix in a file name, following
the pathlib rule: the last dot strictly inside the name, ignoring a leading or
trailing dot. -/
def lastDotIdx (cs : List Char) : Option Nat :=
  (List.range cs.length).reverse.find?
    (fun i => decide (cs.getD i ' ' = '.') && decide (0 < i) && decide (i < cs.length - 1))

/-- The pathlib `suffix` attribute. -/
def PPath.suffix (p : PPath) : String :=
  let cs := p.name.toList
  match lastDotIdx cs with
  | some i => String.mk (cs.drop i)
  | none => ""

/-- The pathlib `stem` attribute. -/
def PPath.stem (p : PPath) : String :=
  let cs := p.name.toList
  match lastDotIdx cs with
  | some i => String.mk (cs.take i)
  | none => p.name

/-- The pathlib `/` operator applied to a raw string: an absolute right operand
replaces the left one. -/
def PPath.joinStr (p : PPath) (s : String) : PPath :=
  let q := pathFromString s
  if q.absolute then q else { absolute := p.absolute, parts := p.parts ++ q.parts }

/-- The pathlib two-argument constructor on paths: an absolute right operand
replaces the left one. -/
def PPath.joinPath (p q : PPath) : PPath :=
  if q.absolute then q else { absolute := p.absolute, parts := p.parts ++ q.parts }

/-- Data stored in one regular file: its rows (for CSV files the parsed rows;
for opaque files arbitrary tokens) and its modification time as a Unix
timestamp. -/
structure FileData where
  rows : List (List String)
  mtime : Int
deriving DecidableEq, Repr

/-- Explicit filesystem state: current working directory, regular files with
their data, and directories. -/
structure FS where
  cwd : PPath
  files : List (PPath × FileData)
  dirs : List PPath
deriving DecidableEq, Repr

/-- Content of the regular file at a path, when one is present. -/
def FS.lookupFile (fs : FS) (p : PPath) : Option FileData :=
  (fs.files.find? (fun e => decide (e.1 = p))).map Prod.snd

/-- The pathlib `is_file` query. -/
def FS.isFile (fs : FS) (p : PPath) : Bool := (fs.lookupFile p).isSome

/-- The pathlib `is_dir` query. -/
def FS.isDir (fs : FS) (p : PPath) : Bool := decide (p ∈ fs.dirs)

/-- The pathlib `exists` query: a regular file or a directory is present. -/
def FS.pexists (fs : FS) (p : PPath) : Bool := fs.isFile p || fs.isDir p

/-- All leading segments of a component list, from the empty list up to the
whole list. -/
def initsOf : List String → List (List String)
  | [] => [[]]
  | a :: l => [] :: (initsOf l).map (fun m => a :: m)

/-- Every path created by a recursive directory creation at `p`: `p` itself and
all of its ancestors. -/
def ancestors (p : PPath) : List PPath :=
  (initsOf p.parts).map (fun l => { absolute := p.absolute, parts := l })

/-- The pathlib `mkdir` with recursive parent creation and idempotence. -/
def FS.mkdirParents (fs : FS) (p : PPath) : FS :=
  { fs with dirs := ancestors p ++ fs.dirs }

/-- Create or overwrite the regular file at a path. -/
def FS.writeFile (fs : FS) (p : PPath) (d : FileData) : FS :=
  { fs with files := (p, d) :: fs.files }

/-- Python exceptions that the embedded functions can raise.  The extra
`nonTermination` value is a model artefact marking fuel exhaustion of the
unbounded collision loop. -/
inductive PyErr where
  | attributeError
  | typeError
  | fileNotFoundError
  | specialFileError
  | indexError
  | isADirectoryError
  | nonTermination
deriving DecidableEq, Repr

/-- Dynamically typed Python values that callers pass into the helpers. -/
inductive PyVal where
  | path (p : PPath)
  | str (s : String)
  | int (n : Int)
deriving DecidableEq, Repr

/-- The characters stripped by `clean_filename_str`: the content of the Python
literal listing backslash, slash, colon, asterisk, question mark, angle
brackets, pipe and hyphen. -/
def invalidChars : List Char := ['\\', '/', ':', '*', '?', '<', '>', '|', '-']

/-- The string filtering inside `clean_filename_str`: keep exactly the
characters outside the invalid set, in order. -/
def cleanStr (fn : String) : String :=
  String.mk (fn.toList.filter (fun c => decide (c ∉ invalidChars)))

/-- `clean_filename_str` from `filehandling.py`: filter the invalid characters
out of the string and wrap the result in a path. -/
def clean_filename_str (fn : String) : PPath :=
  pathFromString (cleanStr fn)

/-- The candidate name built in the collision loop: original stem, counter in
parentheses, original suffix, placed next to the original file. -/
def collisionName (file : PPath) (n : Nat) : PPath :=
  file.with_name (file.stem ++ "(" ++ toString n ++ ")" ++ file.suffix)

/-- The sequence of names probed by `new_name_if_exists`: the file itself
first, then the counter names for 1, 2, 3, and so on. -/
def checkedName (file : PPath) : Nat → PPath
  | 0 => file
  | Nat.succ m => collisionName file (m + 1)

/-- The body of the `while True` loop of `new_name_if_exists`, with fuel. -/
def newNameLoop (fs : FS) (file : PPath) : Nat → Nat → Option PPath
  | _, 0 => none
  | k, Nat.succ fuel =>
      if fs.isFile (checkedName file k) then newNameLoop fs file (k + 1) fuel
      else some (checkedName file k)

/-- `new_name_if_exists` from `filehandling.py`: probe the proposed name and
then the counter names until one is not a regular file. -/
def new_name_if_exists (fs : FS) (file : PPath) (fuel : Nat) : Option PPath :=
  newNameLoop fs file 0 fuel

/-- The `shutil.copy2` external call: a destination that is a directory
receives the file under the source base name inside it; an existing regular
file at the real destination is overwritten. -/
def copy2 (fs : FS) (src dst : PPath) : Except PyErr FS :=
  match fs.lookupFile src with
  | none => Except.error PyErr.fileNotFoundError
  | some data =>
      let realDst := if fs.isDir dst then dst.joinStr src.name else dst
      if fs.isDir realDst then Except.error PyErr.isADirectoryError
      else Except.ok (fs.writeFile realDst data)

/-- `copy_to_target` from `filehandling.py`: default the target to the current
working directory, reject a non-path target, resolve the destination name with
`new_name_if_exists`, then copy, wrapping copy failures. -/
def copy_to_target (fs : FS) (file : PyVal) (target_diectory : Option PyVal)
    (fuel : Nat) : FS × Except PyErr Bool :=
  match target_diectory with
  | some (PyVal.str _) => (fs, Except.error PyErr.fileNotFoundError)
  | some (PyVal.int _) => (fs, Except.error PyErr.fileNotFoundError)
  | some (PyVal.path t) => copyToTargetResolved fs file t fuel
  | none => copyToTargetResolved fs file fs.cwd fuel
where
  /-- The part of `copy_to_target` after the target has been validated. -/
  copyToTargetResolved (fs : FS) (file : PyVal) (t : PPath) (fuel : Nat) :
      FS × Except PyErr Bool :=
    match file with
    | PyVal.path p =>
        match new_name_if_exists fs (t.joinStr p.name) fuel with
        | none => (fs, Except.error PyErr.nonTermination)
        | some new_file =>
            match copy2 fs p new_file with
            | Except.error _ => (fs, Except.error PyErr.specialFileError)
            | Except.ok fs2 => (fs2, Except.ok true)
    | _ => (fs, Except.error PyErr.attributeError)

/-- `check_and_validate_fname` from `filehandling.py`: default the target to
the current working directory, sanitise the name, create the target directory,
and return the joined path unconditionally. -/
def check_and_validate_fname (fs : FS) (fname : String)
    (target_directory : Option PyVal) : FS × Except PyErr PPath :=
  match target_directory with
  | none =>
      (fs.mkdirParents fs.cwd, Except.ok (fs.cwd.joinPath (clean_filename_str fname)))
  | some (PyVal.path t) =>
      (fs.mkdirParents t, Except.ok (t.joinPath (clean_filename_str fname)))
  | some _ => (fs, Except.error PyErr.attributeError)

/-- `write_csv` from `filehandling.py`: build the directory under the current
working directory, validate the file name, write a header row from the keys of
the first record when the path does not yet exist, then append one row of
values per record. -/
def write_csv (fs0 : FS) (data : List (List (String × String)))
    (filename : String) (directory : String) : FS × Except PyErr Unit :=
  let dirobj := fs0.cwd.joinPath (pathFromString directory)
  let fs1 := fs0.mkdirParents dirobj
  match check_and_validate_fname fs1 filename (some (PyVal.path dirobj)) with
  | (fs2, Except.error e) => (fs2, Except.error e)
  | (fs2, Except.ok pathobj) =>
      let headerStep : FS × Except PyErr Unit :=
        if fs2.pexists pathobj then (fs2, Except.ok ())
        else
          match data with
          | [] => (fs2, Except.error PyErr.indexError)
          | d0 :: _ =>
              (fs2.writeFile pathobj { rows := [d0.map Prod.fst], mtime := 0 },
               Except.ok ())
      match headerStep with
      | (fs3, Except.error e) => (fs3, Except.error e)
      | (fs3, Except.ok _) =>
          if fs3.isDir pathobj then (fs3, Except.error PyErr.isADirectoryError)
          else
            let old :=
              match fs3.lookupFile pathobj with
              | some fd => fd.rows
              | none => []
            (fs3.writeFile pathobj
               { rows := old ++ data.map (fun it => it.map Prod.snd), mtime := 0 },
             Except.ok ())

/-- Glob matching with the star and question-mark wildcards, shell semantics. -/
def globMatch : List Char → List Char → Bool
  | [], [] => true
  | [], _ :: _ => false
  | c :: ps, [] => if c = '*' then globMatch ps [] else false
  | c :: ps, d :: s2 =>
      if c = '*' then globMatch ps (d :: s2) || globMatch (c :: ps) s2
      else (decide (c = '?') || decide (c = d)) && globMatch ps s2
termination_by p s => p.length + s.length

/-- The pathlib `resolve` call: make a path absolute against the current
working directory. -/
def resolvePath (cwd p : PPath) : PPath :=
  if p.absolute then p else { absolute := true, parts := cwd.parts ++ p.parts }

/-- The pathlib `rglob` call: every entry strictly below the root whose final
component matches the pattern. -/
def FS.rglob (fs : FS) (root : PPath) (pattern : String) : List PPath :=
  ((fs.files.map Prod.fst) ++ fs.dirs).filter
    (fun q =>
      decide (q.absolute = root.absolute)
        && decide (root.parts.length < q.parts.length)
        && decide (q.parts.take root.parts.length = root.parts)
        && globMatch pattern.toList q.name.toList)

/-- `get_files` from `filehandling.py`: default and type-check the pattern,
coerce the source to a path, resolve it, log (without failing) when it is not
a directory, change the working directory to it, raise `FileNotFoundError`
when the working directory could not be moved there, list matches recursively,
and restore the original working directory. -/
def get_files (fs : FS) (source_directory : PyVal) (pattern : Option PyVal) :
    FS × Except PyErr (List PPath) :=
  match pattern with
  | some (PyVal.path _) => (fs, Except.error PyErr.typeError)
  | some (PyVal.int _) => (fs, Except.error PyErr.typeError)
  | some (PyVal.str s) => getFilesChecked fs source_directory s
  | none => getFilesChecked fs source_directory "*.*"
where
  /-- The part of `get_files` after the pattern has been validated. -/
  getFilesChecked (fs : FS) (source_directory : PyVal) (pat : String) :
      FS × Except PyErr (List PPath) :=
    match source_directory with
    | PyVal.int _ => (fs, Except.error PyErr.typeError)
    | PyVal.str s => getFilesOnPath fs (pathFromString s) pat
    | PyVal.path p => getFilesOnPath fs p pat
  /-- The part of `get_files` after the source has been coerced to a path. -/
  getFilesOnPath (fs : FS) (src : PPath) (pat : String) :
      FS × Except PyErr (List PPath) :=
    let orig := fs.cwd
    let source := resolvePath fs.cwd src
    let moved :=
      if source = orig then (fs, orig)
      else if fs.isDir source then ({ fs with cwd := source }, source)
      else (fs, orig)
    if source = moved.2 then
      let found := moved.1.rglob source pat
      let fs2 := if moved.1.isDir orig then { moved.1 with cwd := orig } else moved.1
      (fs2, Except.ok found)
    else (moved.1, Except.error PyErr.fileNotFoundError)

/-- Calendar components of a date. -/
structure DateParts where
  year : Int
  month : Int
  day : Int
deriving DecidableEq, Repr

/-- Civil calendar date of a day count from the Unix epoch, by the standard
era-based conversion; all divisions act on non-negative operands. -/
def civilFromDays (z0 : Int) : DateParts :=
  let z := z0 + 719468
  let era : Int := Int.fdiv z 146097
  let doe : Int := z - era * 146097
  let yoe : Int := (doe - doe / 1460 + doe / 36524 - doe / 146096) / 365
  let y : Int := yoe + era * 400
  let doy : Int := doe - (365 * yoe + yoe / 4 - yoe / 100)
  let mp : Int := (5 * doy + 2) / 153
  let d : Int := doy - (153 * mp + 2) / 5 + 1
  let m : Int := mp + (if mp < 10 then 3 else -9)
  { year := y + (if m ≤ 2 then 1 else 0), month := m, day := d }

/-- Modelled from the spec: the helper `timefstring` lives in the repository
module `cfsiv_utils.time_strings`, which is absent from the sources; the spec
describes it as a timestamp-formatting helper that converts a Unix timestamp
into year and month components, which we model as the civil date of the
timestamp day. -/
def timefstring (ts : Int) : DateParts :=
  civilFromDays (Int.fdiv ts 86400)

/-- Zero-padded two-digit rendering of the month, the formatting used for the
month directory component. -/
def pad2 (n : Int) : String :=
  if n < 10 then "0" ++ toString n else toString n

/-- `create_timestamp_subdirectory_Structure` from `filehandling.py`: default
and type-check the target, read the modification time of the file, derive the
year and month directory, and create it recursively. -/
def create_timestamp_subdirectory_Structure (fs : FS) (file : PyVal)
    (target_directory : Option PyVal) : FS × Except PyErr PPath :=
  match target_directory with
  | some (PyVal.str _) => (fs, Except.error PyErr.typeError)
  | some (PyVal.int _) => (fs, Except.error PyErr.typeError)
  | some (PyVal.path t) => timestampSubdirAt fs file t
  | none => timestampSubdirAt fs file fs.cwd
where
  /-- The part of the function after the target has been validated. -/
  timestampSubdirAt (fs : FS) (file : PyVal) (t : PPath) :
      FS × Except PyErr PPath :=
    match file with
    | PyVal.path p =>
        match fs.lookupFile p with
        | none => (fs, Except.error PyErr.fileNotFoundError)
        | some fd =>
            let date := timefstring fd.mtime
            let new_path := t.joinStr (toString date.year ++ "/" ++ pad2 date.month ++ "/")
            (fs.mkdirParents new_path, Except.ok new_path)
    | _ => (fs, Except.error PyErr.attributeError)

/-- `copy_to_target_and_divide_by_filedate` from `filehandling.py`: type-check
the target, build the year and month directory from the modification time,
then call `copy_to_target` with the bare name string of the file rather than
the file path itself. -/
def copy_to_target_and_divide_by_filedate (fs : FS) (file : PyVal)
    (target_directory : Option PyVal) (fuel : Nat) : FS × Except PyErr Bool :=
  match target_directory with
  | some (PyVal.str _) => (fs, Except.error PyErr.typeError)
  | some (PyVal.int _) => (fs, Except.error PyErr.typeError)
  | _ =>
      match create_timestamp_subdirectory_Structure fs file target_directory with
      | (fs1, Except.error e) => (fs1, Except.error e)
      | (fs1, Except.ok new_path) =>
          match file with
          | PyVal.path p =>
              copy_to_target fs1 (PyVal.str p.name) (some (PyVal.path new_path)) fuel
          | _ => (fs1, Except.error PyErr.attributeError)

/-- The Python slice of a string from the start up to a possibly negative
bound. -/
def strSliceTo (s : String) (k : Int) : String :=
  let n : Int := Int.ofNat s.length
  let stop : Int := if k < 0 then max 0 (n + k) else min k n
  String.mk (s.toList.take stop.toNat)

/-- `copy_to_target_and_divide_by_dictionary` from `filehandling.py`: default
the character count to one; a non-integer count triggers the raise of a plain
string, which in Python itself fails with a `TypeError`; non-positive integer
counts pass through unchecked.  Then type-check the target, create the prefix
directory, and call `copy_to_target` with the bare name string of the file. -/
def copy_to_target_and_divide_by_dictionary (fs : FS) (file : PyVal)
    (target_directory : Option PyVal) (characters : Option PyVal) (fuel : Nat) :
    FS × Except PyErr Bool :=
  match characters with
  | some (PyVal.str _) => (fs, Except.error PyErr.typeError)
  | some (PyVal.path _) => (fs, Except.error PyErr.typeError)
  | some (PyVal.int n) => divideByDictionaryCounted fs file target_directory n fuel
  | none => divideByDictionaryCounted fs file target_directory 1 fuel
where
  /-- The part of the function after the character count has been validated. -/
  divideByDictionaryCounted (fs : FS) (file : PyVal)
      (target_directory : Option PyVal) (k : Int) (fuel : Nat) :
      FS × Except PyErr Bool :=
    match target_directory with
    | some (PyVal.str _) => (fs, Except.error PyErr.typeError)
    | some (PyVal.int _) => (fs, Except.error PyErr.typeError)
    | some (PyVal.path t) => divideByDictionaryAt fs file t k fuel
    | none => divideByDictionaryAt fs file fs.cwd k fuel
  /-- The part of the function after the target has been validated. -/
  divideByDictionaryAt (fs : FS) (file : PyVal) (t : PPath) (k : Int)
      (fuel : Nat) : FS × Except PyErr Bool :=
    match file with
    | PyVal.path p =>
        let new_path := t.joinStr (strSliceTo p.name k ++ "/")
        let fs1 := fs.mkdirParents new_path
        copy_to_target fs1 (PyVal.str p.name) (some (PyVal.path new_path)) fuel
    | _ => (fs, Except.error PyErr.attributeError)

/-- A time of day, the `datetime.time` value handed to the rotator. -/
structure PyTime where
  hour : Nat
  minute : Nat
  second : Nat
deriving DecidableEq, Repr

/-- A wall-clock instant: day number plus time of day plus microseconds, the
fields of `datetime.datetime` that the rotator manipulates. -/
structure PyDateTime where
  day : Nat
  hour : Nat
  minute : Nat
  second : Nat
  micro : Nat
deriving DecidableEq, Repr

/-- Linearisation of an instant to microseconds, the order used by datetime
comparison and by `timestamp()` on in-range values. -/
def PyDateTime.toMicros (d : PyDateTime) : Nat :=
  (((d.day * 24 + d.hour) * 60 + d.minute) * 60 + d.second) * 1000000 + d.micro

/-- The `replace` call of the rotator constructor: substitute hour, minute and
second, keeping day and microseconds. -/
def PyDateTime.replaceHMS (d : PyDateTime) (t : PyTime) : PyDateTime :=
  { d with hour := t.hour, minute := t.minute, second := t.second }

/-- Adding `timedelta(days=1)`. -/
def PyDateTime.addOneDay (d : PyDateTime) : PyDateTime :=
  { d with day := d.day + 1 }

/-- The rotator state from `log_handling.py`: a size limit and the next
time-based rotation boundary. -/
structure Rotator where
  size_limit : Nat
  time_limit : PyDateTime
deriving DecidableEq, Repr

/-- The `Rotator` constructor: place the boundary at the configured time of
day on the construction day, and push it one day later when the construction
instant has already reached it. -/
def Rotator.init (size : Nat) (at_time : PyTime) (now : PyDateTime) : Rotator :=
  let tl := now.replaceHMS at_time
  if tl.toMicros ≤ now.toMicros then
    { size_limit := size, time_limit := tl.addOneDay }
  else
    { size_limit := size, time_limit := tl }

/-- The time-trigger condition inside `should_rotate`: the message timestamp
lies strictly beyond the boundary. -/
def Rotator.timeTrigger (r : Rotator) (msg_time : PyDateTime) : Bool :=
  decide (r.time_limit.toMicros < msg_time.toMicros)

/-- `should_rotate` from `log_handling.py`: rotate when the pending write
would exceed the size limit, or when the message timestamp crosses the time
boundary, advancing the boundary by one day in the latter case. -/
def Rotator.should_rotate (r : Rotator) (msg_len file_size : Nat)
    (msg_time : PyDateTime) : Bool × Rotator :=
  if r.size_limit < file_size + msg_len then (true, r)
  else if r.time_limit.toMicros < msg_time.toMicros then
    (true, { r with time_limit := r.time_limit.addOneDay })
  else (false, r)

/-! ### General lemmas about the filesystem model -/

lemma lookupFile_writeFile (fs : FS) (p q : PPath) (d : FileData) :
    (fs.writeFile p d).lookupFile q = if q = p then some d else fs.lookupFile q := by
  unfold FS.writeFile FS.lookupFile
  by_cases h : q = p
  · subst h
    simp [List.find?]
  · have hd : (decide (p = q)) = false := by
      simp only [decide_eq_false_iff_not]
      exact fun he => h he.symm
    simp [List.find?, hd, h]

lemma isFile_writeFile (fs : FS) (p q : PPath) (d : FileData) :
    (fs.writeFile p d).isFile q = (decide (q = p) || fs.isFile q) := by
  unfold FS.isFile
  rw [lookupFile_writeFile]
  by_cases h : q = p <;> simp [h]

lemma isDir_writeFile (fs : FS) (p q : PPath) (d : FileData) :
    (fs.writeFile p d).isDir q = fs.isDir q := rfl

lemma cwd_writeFile (fs : FS) (p : PPath) (d : FileData) :
    (fs.writeFile p d).cwd = fs.cwd := rfl

lemma isFile_mkdirParents (fs : FS) (d q : PPath) :
    (fs.mkdirParents d).isFile q = fs.isFile q := rfl

lemma lookupFile_mkdirParents (fs : FS) (d q : PPath) :
    (fs.mkdirParents d).lookupFile q = fs.lookupFile q := rfl

lemma cwd_mkdirParents (fs : FS) (d : PPath) :
    (fs.mkdirParents d).cwd = fs.cwd := rfl

lemma isDir_mkdirParents (fs : FS) (d q : PPath) :
    (fs.mkdirParents d).isDir q = (decide (q ∈ ancestors d) || fs.isDir q) := by
  unfold FS.isDir FS.mkdirParents
  by_cases h : q ∈ ancestors d <;> simp [h, List.mem_append]

lemma mem_initsOf_length {l : List String} {m : List String}
    (h : l ∈ initsOf m) : l.length ≤ m.length := by
  induction m generalizing l with
  | nil =>
      unfold initsOf at h
      simp at h
      simp [h]
  | cons a m ih =>
      unfold initsOf at h
      rcases List.mem_cons.mp h with h0 | h1
      · simp [h0]
      · rcases List.mem_map.mp h1 with ⟨m2, hm2, hl⟩
        subst hl
        simpa using Nat.succ_le_succ (ih hm2)

lemma mem_ancestors_length {q d : PPath} (h : q ∈ ancestors d) :
    q.parts.length ≤ d.parts.length := by
  rcases List.mem_map.mp h with ⟨l, hl, hq⟩
  subst hq
  exact mem_initsOf_length hl

lemma clean_not_absolute (fn : String) : (clean_filename_str fn).absolute = false := by
  unfold clean_filename_str pathFromString cleanStr
  cases h : (String.mk (fn.toList.filter (fun c => decide (c ∉ invalidChars)))).toList with
  | nil => simp [h]
  | cons c rest =>
      have hc : c ∈ fn.toList.filter (fun c => decide (c ∉ invalidChars)) := by
        have : (String.mk (fn.toList.filter (fun c => decide (c ∉ invalidChars)))).toList
            = fn.toList.filter (fun c => decide (c ∉ invalidChars)) := rfl
        rw [this] at h
        rw [h]
        exact List.mem_cons_self c rest
      have hval := (List.mem_filter.mp hc).2
      by_cases hslash : c = '/'
      · subst hslash
        simp [invalidChars] at hval
      · simp [h, hslash]

/-! ### Behaviour of the collision-resolution loop -/

lemma newNameLoop_spec (fs : FS) (file : PPath) :
    ∀ fuel k r, newNameLoop fs file k fuel = some r →
      fs.isFile r = false ∧
      ∃ j, k ≤ j ∧ r = checkedName file j ∧
        ∀ i, k ≤ i → i < j → fs.isFile (checkedName file i) = true := by
  intro fuel
  induction fuel with
  | zero => intro k r h; simp [newNameLoop] at h
  | succ fuel ih =>
      intro k r h
      unfold newNameLoop at h
      by_cases hk : fs.isFile (checkedName file k)
      · rw [if_pos hk] at h
        rcases ih (k + 1) r h with ⟨hr, j, hkj, hrj, hall⟩
        refine ⟨hr, j, Nat.le_of_succ_le hkj, hrj, ?_⟩
        intro i hki hij
        rcases Nat.eq_or_lt_of_le hki with hik | hik
        · rw [← hik]; exact hk
        · exact hall i hik hij
      · rw [if_neg hk] at h
        have hr : r = checkedName file k := (Option.some.injEq _ _).mp h.symm
        refine ⟨by rw [hr]; exact Bool.eq_false_iff.mpr hk, k, Nat.le_refl k, hr, ?_⟩
        intro i hki hik
        exact absurd (Nat.lt_of_le_of_lt hki hik) (Nat.lt_irrefl k)

/-! ### Claim C1: collision resolution -/

/-- The collision-resolution property exactly as the specification states it,
at one input: a path that does not exist is returned unchanged, and a path
that does exist resolves to a counter name that does not exist, with all
smaller counters existing.  The specification speaks of existence on disk,
not of regular-file status. -/
def collisionClaimAt (fs : FS) (p : PPath) (fuel : Nat) : Prop :=
  (fs.pexists p = false → new_name_if_exists fs p fuel = some p) ∧
  (fs.pexists p = true → ∀ r, new_name_if_exists fs p fuel = some r →
    fs.pexists r = false ∧
    ∃ n, 1 ≤ n ∧ r = collisionName p n ∧
      ∀ k, 1 ≤ k → k < n → fs.pexists (collisionName p k) = true)

/-- Example filesystem for C1: the probed path exists as a directory. -/
def c1FS : FS :=
  { cwd := { absolute := true, parts := ["home"] },
    files := [],
    dirs := [{ absolute := true, parts := [] },
             { absolute := true, parts := ["home"] },
             { absolute := true, parts := ["data", "report.txt"] }] }

/-- Example path for C1, present as a directory in `c1FS`. -/
def c1Path : PPath := { absolute := true, parts := ["data", "report.txt"] }

/-- C1 counterexample: `new_name_if_exists` probes `is_file`, not `exists`.
On a path that exists as a directory the function returns the path unchanged,
so the returned path still exists, contradicting the claim that for every
existing path the result is a fresh counter name. -/
theorem c1_counterexample : ¬ collisionClaimAt c1FS c1Path 5 := by
  intro h
  have hex : c1FS.pexists c1Path = true := by decide
  have hres : new_name_if_exists c1FS c1Path 5 = some c1Path := by decide
  have hfresh := (h.2 hex c1Path hres).1
  rw [hex] at hfresh
  exact absurd hfresh (by decide)

/-- C1 (amended): whenever the loop of `new_name_if_exists` returns, a path
that is not a regular file is returned unchanged (even when it exists as a
directory), and a path that is a regular file resolves to the first counter
name of the form stem, parenthesised counter, suffix that is not a regular
file, every smaller positive counter naming a regular file. -/
theorem c1_collision_resolution (fs : FS) (file : PPath) (fuel : Nat) (r : PPath)
    (h : new_name_if_exists fs file fuel = some r) :
    (fs.isFile file = false → r = file) ∧
    (fs.isFile file = true →
      fs.isFile r = false ∧
      ∃ n, 1 ≤ n ∧ r = collisionName file n ∧
        ∀ k, 1 ≤ k → k < n → fs.isFile (collisionName file k) = true) := by
  rcases newNameLoop_spec fs file fuel 0 r h with ⟨hr, j, _, hrj, hall⟩
  constructor
  · intro hf
    cases j with
    | zero => rw [hrj]; rfl
    | succ m =>
        have := hall 0 (Nat.zero_le 0) (Nat.succ_pos m)
        have hfile : fs.isFile file = true := this
        rw [hf] at hfile
        exact absurd hfile Bool.false_ne_true
  · intro hf
    refine ⟨hr, ?_⟩
    cases j with
    | zero =>
        have : r = file := by rw [hrj]; rfl
        rw [this, hf] at hr
        exact absurd hr (by decide)
    | succ m =>
        refine ⟨m + 1, Nat.succ_le_succ (Nat.zero_le m), hrj, ?_⟩
        intro k hk1 hkm
        cases k with
        | zero => exact absurd hk1 (Nat.not_succ_le_zero 0)
        | succ k0 =>
            have := hall (k0 + 1) (Nat.zero_le _) hkm
            exact this

/-- Witness filesystem for C1: the proposed name and the first counter name
are both regular files. -/
def c1WitnessFS : FS :=
  { cwd := { absolute := true, parts := ["home"] },
    files := [({ absolute := true, parts := ["d", "a.txt"] }, { rows := [], mtime := 0 }),
              ({ absolute := true, parts := ["d", "a(1).txt"] }, { rows := [], mtime := 0 })],
    dirs := [{ absolute := true, parts := [] },
             { absolute := true, parts := ["home"] },
             { absolute := true, parts := ["d"] }] }

/-- Witness input path for C1. -/
def c1WitnessFile : PPath := { absolute := true, parts := ["d", "a.txt"] }

/-- Witness output path for C1: the second counter name. -/
def c1WitnessResult : PPath := { absolute := true, parts := ["d", "a(2).txt"] }

/-- C1 witness: a concrete run of the amended theorem, on a filesystem where
the proposed name and the first counter name are both regular files, so the
second counter name is returned. -/
theorem c1_witness :
    (c1WitnessFS.isFile c1WitnessFile = false → c1WitnessResult = c1WitnessFile) ∧
    (c1WitnessFS.isFile c1WitnessFile = true →
      c1WitnessFS.isFile c1WitnessResult = false ∧
      ∃ n, 1 ≤ n ∧ c1WitnessResult = collisionName c1WitnessFile n ∧
        ∀ k, 1 ≤ k → k < n → c1WitnessFS.isFile (collisionName c1WitnessFile k) = true) :=
  c1_collision_resolution c1WitnessFS c1WitnessFile 10 c1WitnessResult (by decide)

/-! ### Claim C2: safe destination without rename permission -/

lemma pexists_mkdirParents_of (fs : FS) (d q : PPath) (h : fs.pexists q = true) :
    (fs.mkdirParents d).pexists q = true := by
  unfold FS.pexists at h ⊢
  rw [isFile_mkdirParents, isDir_mkdirParents]
  rcases Bool.or_eq_true_iff.mp h with h1 | h1
  · simp [h1]
  · simp [h1]

/-- Modelled from the spec: the `safe_destination` contract of the
PathValidator component, steps a through f, with the `allow_rename` flag the
specification describes.  Returns no result when the sanitised destination is
occupied and renaming is not allowed. -/
def safe_destination_spec (fs : FS) (name : String) (target_dir : PPath)
    (allow_rename : Bool) (fuel : Nat) : Option PPath :=
  let fs1 := fs.mkdirParents target_dir
  let path := target_dir.joinPath (clean_filename_str name)
  if fs1.pexists path = false then some path
  else if allow_rename then new_name_if_exists fs1 path fuel
  else none

/-- The C2 claim at one input: with the sanitised destination occupied, the
code returns neither the occupied path nor an error, matching the "no result"
the specification promises. -/
def destinationOccupiedClaimAt (fs : FS) (fname : String) (t : PPath) : Prop :=
  fs.pexists (t.joinPath (clean_filename_str fname)) = true →
    (check_and_validate_fname fs fname (some (PyVal.path t))).2 ≠
      Except.ok (t.joinPath (clean_filename_str fname)) ∧
    ∀ e, (check_and_validate_fname fs fname (some (PyVal.path t))).2 ≠ Except.error e

/-- Example filesystem for C2: the sanitised destination is already a regular
file. -/
def c2FS : FS :=
  { cwd := { absolute := true, parts := ["home"] },
    files := [({ absolute := true, parts := ["archive", "report.txt"] },
               { rows := [["old"]], mtime := 5 })],
    dirs := [{ absolute := true, parts := [] },
             { absolute := true, parts := ["home"] },
             { absolute := true, parts := ["archive"] }] }

/-- Example target directory for C2. -/
def c2Dir : PPath := { absolute := true, parts := ["archive"] }

/-- C2 counterexample: the specification-side contract answers no result on
the occupied destination, but `check_and_validate_fname` has no rename flag
at all and hands back the occupied path itself. -/
theorem c2_counterexample :
    safe_destination_spec c2FS "report.txt" c2Dir false 5 = none ∧
    ¬ destinationOccupiedClaimAt c2FS "report.txt" c2Dir := by
  constructor
  · decide
  · intro h
    have hocc : c2FS.pexists (c2Dir.joinPath (clean_filename_str "report.txt")) = true := by
      decide
    exact (h hocc).1 rfl

/-- C2 (amended): `check_and_validate_fname` takes no rename permission and
never signals a missing result; when the sanitised destination is already
occupied it returns exactly that occupied path, which still exists in the
filesystem it hands back. -/
theorem c2_returns_occupied (fs : FS) (fname : String) (t : PPath)
    (hocc : fs.pexists (t.joinPath (clean_filename_str fname)) = true) :
    (check_and_validate_fname fs fname (some (PyVal.path t))).2 =
      Except.ok (t.joinPath (clean_filename_str fname)) ∧
    (check_and_validate_fname fs fname (some (PyVal.path t))).1.pexists
      (t.joinPath (clean_filename_str fname)) = true := by
  refine ⟨rfl, ?_⟩
  exact pexists_mkdirParents_of fs t _ hocc

/-- C2 witness: the amended theorem run on the example filesystem with its
occupied destination. -/
theorem c2_witness :
    (check_and_validate_fname c2FS "report.txt" (some (PyVal.path c2Dir))).2 =
      Except.ok (c2Dir.joinPath (clean_filename_str "report.txt")) ∧
    (check_and_validate_fname c2FS "report.txt" (some (PyVal.path c2Dir))).1.pexists
      (c2Dir.joinPath (clean_filename_str "report.txt")) = true :=
  c2_returns_occupied c2FS "report.txt" c2Dir (by decide)

/-! ### Claim C3: copying never destroys an existing destination file -/

lemma lookupFile_eq_none_of_isFile_false (fs : FS) (q : PPath)
    (h : fs.isFile q = false) : fs.lookupFile q = none := by
  unfold FS.isFile at h
  cases hl : fs.lookupFile q with
  | none => rfl
  | some d => rw [hl] at h; simp at h

/-- The C3 claim at one input: the resolved destination is fresh (does not
exist), and a successful copy leaves every pre-existing file in place with its
data intact. -/
def copySafetyClaimAt (fs : FS) (p t : PPath) (fuel : Nat) : Prop :=
  ∀ d, new_name_if_exists fs (t.joinStr p.name) fuel = some d →
    fs.pexists d = false ∧
    ∀ fs2, copy_to_target fs (PyVal.path p) (some (PyVal.path t)) fuel =
        (fs2, Except.ok true) →
      ∀ q fd, fs.lookupFile q = some fd → fs2.lookupFile q = some fd

/-- Example filesystem for C3: a directory occupies the computed destination
name and holds a samename regular file. -/
def c3FS : FS :=
  { cwd := { absolute := true, parts := ["home"] },
    files := [({ absolute := true, parts := ["docs", "a.txt"] },
               { rows := [["new"]], mtime := 10 }),
              ({ absolute := true, parts := ["archive", "a.txt", "a.txt"] },
               { rows := [["old"]], mtime := 5 })],
    dirs := [{ absolute := true, parts := [] },
             { absolute := true, parts := ["home"] },
             { absolute := true, parts := ["docs"] },
             { absolute := true, parts := ["archive"] },
             { absolute := true, parts := ["archive", "a.txt"] }] }

/-- Example source file for C3. -/
def c3Src : PPath := { absolute := true, parts := ["docs", "a.txt"] }

/-- Example target directory for C3. -/
def c3Target : PPath := { absolute := true, parts := ["archive"] }

/-- The pre-existing file inside the colliding directory of `c3FS`. -/
def c3Nested : PPath := { absolute := true, parts := ["archive", "a.txt", "a.txt"] }

/-- C3 counterexample: the loop resolves the destination to a path occupied by
a directory, so the destination is not fresh, and the copy descends into that
directory and replaces the data of the pre-existing samename file. -/
theorem c3_counterexample :
    ¬ copySafetyClaimAt c3FS c3Src c3Target 5 ∧
    c3FS.lookupFile c3Nested = some { rows := [["old"]], mtime := 5 } ∧
    (copy_to_target c3FS (PyVal.path c3Src) (some (PyVal.path c3Target)) 5).1.lookupFile
      c3Nested = some { rows := [["new"]], mtime := 10 } ∧
    (copy_to_target c3FS (PyVal.path c3Src) (some (PyVal.path c3Target)) 5).2 =
      Except.ok true := by
  refine ⟨?_, by decide, by decide, by rfl⟩
  intro h
  have hfresh := (h { absolute := true, parts := ["archive", "a.txt"] } (by decide)).1
  exact absurd hfresh (by decide)

/-- C3 (amended): a successful `copy_to_target` resolves its destination to a
path that is not a regular file; when no directory occupies that path either,
the destination was genuinely fresh and every other file of the filesystem is
left untouched. -/
theorem c3_no_overwrite (fs : FS) (p t : PPath) (fuel : Nat) (fs2 : FS)
    (h : copy_to_target fs (PyVal.path p) (some (PyVal.path t)) fuel =
      (fs2, Except.ok true)) :
    ∃ d, new_name_if_exists fs (t.joinStr p.name) fuel = some d ∧
      fs.isFile d = false ∧
      (fs.isDir d = false →
        fs.lookupFile d = none ∧
        ∀ q, q ≠ d → fs2.lookupFile q = fs.lookupFile q) := by
  simp only [copy_to_target, copy_to_target.copyToTargetResolved] at h
  cases hn : new_name_if_exists fs (t.joinStr p.name) fuel with
  | none => rw [hn] at h; simp at h
  | some d =>
      rw [hn] at h
      dsimp only at h
      have hdfile : fs.isFile d = false := by
        rcases newNameLoop_spec fs (t.joinStr p.name) fuel 0 d hn with ⟨hr, _⟩
        exact hr
      cases hc : copy2 fs p d with
      | error e => rw [hc] at h; dsimp only at h; simp at h
      | ok fs3 =>
          rw [hc] at h
          dsimp only at h
          simp only [Prod.mk.injEq] at h
          have hfs2 : fs3 = fs2 := h.1
          refine ⟨d, rfl, hdfile, ?_⟩
          intro hdd
          unfold copy2 at hc
          cases hl : fs.lookupFile p with
          | none => rw [hl] at hc; simp at hc
          | some data =>
              rw [hl] at hc
              simp only [hdd] at hc
              rw [if_neg (by simp [hdd])] at hc
              rw [if_neg (by simp [hdd])] at hc
              have hw : fs.writeFile d data = fs3 := by
                simpa using hc
              refine ⟨lookupFile_eq_none_of_isFile_false fs d hdfile, ?_⟩
              intro q hq
              rw [← hfs2, ← hw, lookupFile_writeFile]
              rw [if_neg hq]

/-- Witness filesystem for C3: a clean target directory. -/
def c3WitnessFS : FS :=
  { cwd := { absolute := true, parts := ["home"] },
    files := [({ absolute := true, parts := ["docs", "a.txt"] },
               { rows := [["new"]], mtime := 10 })],
    dirs := [{ absolute := true, parts := [] },
             { absolute := true, parts := ["home"] },
             { absolute := true, parts := ["docs"] },
             { absolute := true, parts := ["archive"] }] }

/-- C3 witness: the amended theorem run on a successful concrete copy. -/
theorem c3_witness :
    ∃ d, new_name_if_exists c3WitnessFS (c3Target.joinStr c3Src.name) 3 = some d ∧
      c3WitnessFS.isFile d = false ∧
      (c3WitnessFS.isDir d = false →
        c3WitnessFS.lookupFile d = none ∧
        ∀ q, q ≠ d →
          (copy_to_target c3WitnessFS (PyVal.path c3Src)
            (some (PyVal.path c3Target)) 3).1.lookupFile q =
          c3WitnessFS.lookupFile q) :=
  c3_no_overwrite c3WitnessFS c3Src c3Target 3
    (copy_to_target c3WitnessFS (PyVal.path c3Src) (some (PyVal.path c3Target)) 3).1
    rfl

/-! ### Claim C4: filename sanitisation -/

/-- C4: `clean_filename_str` removes exactly the characters of the invalid
set: no invalid character survives, the output is a subsequence of the input
(so order is kept and nothing is inserted), every character outside the
invalid set keeps its multiplicity, and the documented example holds, the
asterisk being the one character removed from it. -/
theorem c4_sanitize_removes_invalid :
    (∀ s : String, ∀ c ∈ (cleanStr s).toList, c ∉ invalidChars) ∧
    (∀ s : String, List.Sublist (cleanStr s).toList s.toList) ∧
    (∀ s : String, ∀ c, c ∉ invalidChars →
      (cleanStr s).toList.count c = s.toList.count c) ∧
    clean_filename_str "qwerty~!@#$%^&*().ext" = pathFromString "qwerty~!@#$%^&().ext" := by
  have htl : ∀ s : String,
      (cleanStr s).toList = s.toList.filter (fun c => decide (c ∉ invalidChars)) :=
    fun s => rfl
  refine ⟨?_, ?_, ?_, by decide⟩
  · intro s c hc
    rw [htl] at hc
    exact of_decide_eq_true (List.mem_filter.mp hc).2
  · intro s
    rw [htl]
    exact List.filter_sublist s.toList
  · intro s c hc
    rw [htl]
    exact List.count_filter (decide_eq_true hc)

/-! ### Claim C5: classification by modification date -/

/-- Example filesystem for C5: one file whose modification timestamp falls on
2023-07-15, and a target root directory. -/
def c5FS : FS :=
  { cwd := { absolute := true, parts := ["home"] },
    files := [({ absolute := true, parts := ["docs", "report.txt"] },
               { rows := [["data"]], mtime := 1689379200 })],
    dirs := [{ absolute := true, parts := [] },
             { absolute := true, parts := ["home"] },
             { absolute := true, parts := ["docs"] },
             { absolute := true, parts := ["archive"] }] }

/-- The C5 source file. -/
def c5File : PPath := { absolute := true, parts := ["docs", "report.txt"] }

/-- The C5 target root. -/
def c5Root : PPath := { absolute := true, parts := ["archive"] }

/-- C5 code bug, evaluated: on a file stamped 2023-07-15 the function does
create the year and month directory tree, but it then hands the bare name
string of the file to `copy_to_target`, which reads the `name` attribute of
that string and fails with `AttributeError`; no copy is placed anywhere, the
file set is unchanged.  The modelled `timefstring` indeed maps the timestamp
to July 2023. -/
theorem c5_code_bug_eval :
    (copy_to_target_and_divide_by_filedate c5FS (PyVal.path c5File)
        (some (PyVal.path c5Root)) 4).2 = Except.error PyErr.attributeError ∧
    (copy_to_target_and_divide_by_filedate c5FS (PyVal.path c5File)
        (some (PyVal.path c5Root)) 4).1.isDir
      { absolute := true, parts := ["archive", "2023", "07"] } = true ∧
    (copy_to_target_and_divide_by_filedate c5FS (PyVal.path c5File)
        (some (PyVal.path c5Root)) 4).1.files = c5FS.files ∧
    (copy_to_target_and_divide_by_filedate c5FS (PyVal.path c5File)
        (some (PyVal.path c5Root)) 4).1.lookupFile
      { absolute := true, parts := ["archive", "2023", "07", "report.txt"] } = none ∧
    timefstring 1689379200 = { year := 2023, month := 7, day := 15 } := by
  refine ⟨rfl, by decide, by decide, by decide, by decide⟩

/-! ### Claim C6: appending to a fresh CSV file -/

lemma joinPath_parts_of_rel (p q : PPath) (h : q.absolute = false) :
    p.joinPath q = { absolute := p.absolute, parts := p.parts ++ q.parts } := by
  unfold PPath.joinPath
  rw [h]
  simp

lemma not_mem_ancestors_of_longer {q d : PPath}
    (h : d.parts.length < q.parts.length) : q ∉ ancestors d := by
  intro hm
  exact absurd (mem_ancestors_length hm) (Nat.not_le_of_lt h)

lemma pexists_parts {fs : FS} {q : PPath} (h : fs.pexists q = false) :
    fs.isFile q = false ∧ fs.isDir q = false := by
  unfold FS.pexists at h
  exact Bool.or_eq_false_iff.mp h

lemma pexists_double_mkdir_false (fs : FS) (d q : PPath)
    (hfile : fs.isFile q = false) (hdir : fs.isDir q = false)
    (hanc : q ∉ ancestors d) :
    ((fs.mkdirParents d).mkdirParents d).pexists q = false := by
  unfold FS.pexists
  rw [isFile_mkdirParents, isFile_mkdirParents,
      isDir_mkdirParents, isDir_mkdirParents]
  simp [hfile, hdir, hanc]

lemma isDir_double_mkdir_false (fs : FS) (d q : PPath)
    (hdir : fs.isDir q = false) (hanc : q ∉ ancestors d) :
    ((fs.mkdirParents d).mkdirParents d).isDir q = false := by
  rw [isDir_mkdirParents, isDir_mkdirParents]
  simp [hdir, hanc]

lemma write_csv_fresh (fs : FS) (d0 : List (String × String))
    (rest : List (List (String × String))) (filename directory : String)
    (dirobj pathobj : PPath)
    (hd : dirobj = fs.cwd.joinPath (pathFromString directory))
    (hp : pathobj = dirobj.joinPath (clean_filename_str filename))
    (hanc : pathobj ∉ ancestors dirobj)
    (hfile : fs.isFile pathobj = false) (hdir : fs.isDir pathobj = false) :
    write_csv fs (d0 :: rest) filename directory =
      ((((fs.mkdirParents dirobj).mkdirParents dirobj).writeFile pathobj
          { rows := [d0.map Prod.fst], mtime := 0 }).writeFile pathobj
        { rows := [d0.map Prod.fst] ++ (d0 :: rest).map (fun it => it.map Prod.snd),
          mtime := 0 },
       Except.ok ()) := by
  have hpe := pexists_double_mkdir_false fs dirobj pathobj hfile hdir hanc
  have hde := isDir_double_mkdir_false fs dirobj pathobj hdir hanc
  subst hd hp
  simp only [write_csv, check_and_validate_fname]
  rw [if_neg (by simp [hpe])]
  dsimp only
  rw [if_neg (by simp [isDir_writeFile, hde])]
  rw [lookupFile_writeFile, if_pos rfl]

lemma write_csv_existing (fs : FS) (data : List (List (String × String)))
    (filename directory : String) (dirobj pathobj : PPath) (fd : FileData)
    (hd : dirobj = fs.cwd.joinPath (pathFromString directory))
    (hp : pathobj = dirobj.joinPath (clean_filename_str filename))
    (hanc : pathobj ∉ ancestors dirobj)
    (hfile : fs.lookupFile pathobj = some fd) (hdir : fs.isDir pathobj = false) :
    write_csv fs data filename directory =
      (((fs.mkdirParents dirobj).mkdirParents dirobj).writeFile pathobj
        { rows := fd.rows ++ data.map (fun it => it.map Prod.snd), mtime := 0 },
       Except.ok ()) := by
  have hisf : fs.isFile pathobj = true := by
    unfold FS.isFile
    rw [hfile]
    rfl
  have hpe : ((fs.mkdirParents dirobj).mkdirParents dirobj).pexists pathobj = true := by
    unfold FS.pexists
    rw [isFile_mkdirParents, isFile_mkdirParents]
    simp [hisf]
  have hde := isDir_double_mkdir_false fs dirobj pathobj hdir hanc
  subst hd hp
  simp only [write_csv, check_and_validate_fname]
  rw [if_pos (by simp [hpe])]
  dsimp only
  rw [if_neg (by simp [hde])]
  rw [lookupFile_mkdirParents, lookupFile_mkdirParents, hfile]

/-- C6: appending the two one-record batches to a fresh CSV destination
produces exactly one header row followed by the two data rows, in order.  The
destination is the sanitised file name inside the directory built under the
current working directory; freshness of that destination is the hypothesis. -/
theorem c6_csv_append_fresh (fs : FS) (filename directory : String)
    (hparts : (clean_filename_str filename).parts ≠ [])
    (hfresh : fs.pexists ((fs.cwd.joinPath (pathFromString directory)).joinPath
      (clean_filename_str filename)) = false) :
    ∃ fs1 fs2,
      write_csv fs [[("a", "1"), ("b", "2")]] filename directory = (fs1, Except.ok ()) ∧
      write_csv fs1 [[("a", "3"), ("b", "4")]] filename directory = (fs2, Except.ok ()) ∧
      fs2.lookupFile ((fs.cwd.joinPath (pathFromString directory)).joinPath
        (clean_filename_str filename)) =
        some { rows := [["a", "b"], ["1", "2"], ["3", "4"]], mtime := 0 } := by
  have habs := clean_not_absolute filename
  have hjp : (fs.cwd.joinPath (pathFromString directory)).joinPath
      (clean_filename_str filename) =
      { absolute := (fs.cwd.joinPath (pathFromString directory)).absolute,
        parts := (fs.cwd.joinPath (pathFromString directory)).parts ++
          (clean_filename_str filename).parts } :=
    joinPath_parts_of_rel _ _ habs
  have hlen : (fs.cwd.joinPath (pathFromString directory)).parts.length <
      ((fs.cwd.joinPath (pathFromString directory)).joinPath
        (clean_filename_str filename)).parts.length := by
    rw [hjp]
    simp only [List.length_append]
    have := List.length_pos.mpr hparts
    omega
  have hanc := not_mem_ancestors_of_longer hlen
  rcases pexists_parts hfresh with ⟨hfile, hdir⟩
  have heq1 := write_csv_fresh fs [("a", "1"), ("b", "2")] [] filename directory
    (fs.cwd.joinPath (pathFromString directory))
    ((fs.cwd.joinPath (pathFromString directory)).joinPath (clean_filename_str filename))
    rfl rfl hanc hfile hdir
  refine ⟨(((fs.mkdirParents (fs.cwd.joinPath (pathFromString directory))).mkdirParents
      (fs.cwd.joinPath (pathFromString directory))).writeFile
      ((fs.cwd.joinPath (pathFromString directory)).joinPath (clean_filename_str filename))
      { rows := [["a", "b"]], mtime := 0 }).writeFile
      ((fs.cwd.joinPath (pathFromString directory)).joinPath (clean_filename_str filename))
      { rows := [["a", "b"], ["1", "2"]], mtime := 0 },
    (((((fs.mkdirParents (fs.cwd.joinPath (pathFromString directory))).mkdirParents
      (fs.cwd.joinPath (pathFromString directory))).writeFile
      ((fs.cwd.joinPath (pathFromString directory)).joinPath (clean_filename_str filename))
      { rows := [["a", "b"]], mtime := 0 }).writeFile
      ((fs.cwd.joinPath (pathFromString directory)).joinPath (clean_filename_str filename))
      { rows := [["a", "b"], ["1", "2"]], mtime := 0 }).mkdirParents
        (fs.cwd.joinPath (pathFromString directory))).mkdirParents
        (fs.cwd.joinPath (pathFromString directory)) |>.writeFile
      ((fs.cwd.joinPath (pathFromString directory)).joinPath (clean_filename_str filename))
      { rows := [["a", "b"], ["1", "2"], ["3", "4"]], mtime := 0 },
    heq1, ?_, ?_⟩
  · exact write_csv_existing _ [[("a", "3"), ("b", "4")]] filename directory
      (fs.cwd.joinPath (pathFromString directory))
      ((fs.cwd.joinPath (pathFromString directory)).joinPath (clean_filename_str filename))
      { rows := [["a", "b"], ["1", "2"]], mtime := 0 }
      rfl rfl hanc
      (by rw [lookupFile_writeFile, if_pos rfl])
      (by rw [isDir_writeFile, isDir_writeFile]
          exact isDir_double_mkdir_false fs _ _ hdir hanc)
  · rw [lookupFile_writeFile, if_pos rfl]

/-- Witness filesystem for C6: nothing below the working directory yet. -/
def c6WitnessFS : FS :=
  { cwd := { absolute := true, parts := ["home"] },
    files := [],
    dirs := [{ absolute := true, parts := [] },
             { absolute := true, parts := ["home"] }] }

/-- C6 witness: the two appends run on a concrete empty filesystem with the
default file and directory names. -/
theorem c6_witness :
    ∃ fs1 fs2,
      write_csv c6WitnessFS [[("a", "1"), ("b", "2")]] "temp.csv" "CSV_DATA" =
        (fs1, Except.ok ()) ∧
      write_csv fs1 [[("a", "3"), ("b", "4")]] "temp.csv" "CSV_DATA" =
        (fs2, Except.ok ()) ∧
      fs2.lookupFile ((c6WitnessFS.cwd.joinPath (pathFromString "CSV_DATA")).joinPath
        (clean_filename_str "temp.csv")) =
        some { rows := [["a", "b"], ["1", "2"], ["3", "4"]], mtime := 0 } :=
  c6_csv_append_fresh c6WitnessFS "temp.csv" "CSV_DATA" (by decide) (by decide)

/-! ### Claim C7: schema mismatch on an established CSV file -/

/-- Example filesystem for C7: an established CSV file with header row a, b
and one data row. -/
def c7FS : FS :=
  { cwd := { absolute := true, parts := ["home"] },
    files := [({ absolute := true, parts := ["home", "CSV_DATA", "temp.csv"] },
               { rows := [["a", "b"], ["1", "2"]], mtime := 0 })],
    dirs := [{ absolute := true, parts := [] },
             { absolute := true, parts := ["home"] },
             { absolute := true, parts := ["home", "CSV_DATA"] }] }

/-- C7 code bug, evaluated: appending a record whose keys c, d differ from the
established header a, b is not rejected; the call succeeds and silently
appends the mismatched values as a data row, leaving the file with a row that
does not fit its header.  The docstring of `write_csv` promises an exception
for exactly this case. -/
theorem c7_code_bug_eval :
    (write_csv c7FS [[("c", "5"), ("d", "6")]] "temp.csv" "CSV_DATA").2 =
      Except.ok () ∧
    (write_csv c7FS [[("c", "5"), ("d", "6")]] "temp.csv" "CSV_DATA").1.lookupFile
      { absolute := true, parts := ["home", "CSV_DATA", "temp.csv"] } =
      some { rows := [["a", "b"], ["1", "2"], ["5", "6"]], mtime := 0 } := by
  exact ⟨rfl, by decide⟩

/-! ### Claim C8: validation of the characters argument -/

/-- The C8 claim at one input: for the given characters value the call fails
and the filesystem is left exactly as it was, no mutation preceding the
failure. -/
def charactersValidationClaimAt (fs : FS) (file : PyVal) (t : PPath)
    (characters : PyVal) (fuel : Nat) : Prop :=
  ∀ fs2 r, copy_to_target_and_divide_by_dictionary fs file (some (PyVal.path t))
      (some characters) fuel = (fs2, r) →
    (∃ e, r = Except.error e) ∧ fs2 = fs

/-- Example filesystem for C8. -/
def c8FS : FS :=
  { cwd := { absolute := true, parts := ["home"] },
    files := [({ absolute := true, parts := ["docs", "report.txt"] },
               { rows := [["data"]], mtime := 1689379200 })],
    dirs := [{ absolute := true, parts := [] },
             { absolute := true, parts := ["home"] },
             { absolute := true, parts := ["docs"] },
             { absolute := true, parts := ["archive"] }] }

/-- The C8 source file. -/
def c8File : PPath := { absolute := true, parts := ["docs", "report.txt"] }

/-- The C8 target root. -/
def c8Root : PPath := { absolute := true, parts := ["archive"] }

/-- C8 counterexample: the characters value minus one is a non-positive
integer, yet no validation error precedes filesystem mutation: the call first
creates the name-derived directory (mutating the filesystem) and only then
fails, with an `AttributeError` coming from the bare name string handed to
`copy_to_target`. -/
theorem c8_counterexample :
    ¬ charactersValidationClaimAt c8FS (PyVal.path c8File) c8Root (PyVal.int (-1)) 4 ∧
    (copy_to_target_and_divide_by_dictionary c8FS (PyVal.path c8File)
        (some (PyVal.path c8Root)) (some (PyVal.int (-1))) 4).1.isDir
      { absolute := true, parts := ["archive", "report.tx"] } = true ∧
    c8FS.isDir { absolute := true, parts := ["archive", "report.tx"] } = false := by
  refine ⟨?_, by decide, by decide⟩
  intro h
  have h2 := (h (copy_to_target_and_divide_by_dictionary c8FS (PyVal.path c8File)
      (some (PyVal.path c8Root)) (some (PyVal.int (-1))) 4).1
    (copy_to_target_and_divide_by_dictionary c8FS (PyVal.path c8File)
      (some (PyVal.path c8Root)) (some (PyVal.int (-1))) 4).2 rfl).2
  have : (copy_to_target_and_divide_by_dictionary c8FS (PyVal.path c8File)
      (some (PyVal.path c8Root)) (some (PyVal.int (-1))) 4).1 ≠ c8FS := by decide
  exact this h2

/-- C8 (amended): only a characters value that is neither an integer nor the
default is rejected up front, through the raise of a plain string, itself a
`TypeError` in Python; the rejection happens before any filesystem mutation.
Non-positive integer values are not validated at all and the call proceeds to
mutate the filesystem. -/
theorem c8_type_check_before_mutation (fs : FS) (file : PyVal)
    (target_directory : Option PyVal) (k : PyVal) (fuel : Nat)
    (hk : ∀ n, k ≠ PyVal.int n) :
    copy_to_target_and_divide_by_dictionary fs file target_directory (some k) fuel =
      (fs, Except.error PyErr.typeError) := by
  cases k with
  | path p => rfl
  | str s => rfl
  | int n => exact absurd rfl (hk n)

/-- C8 witness: the amended theorem run on a string characters value. -/
theorem c8_witness :
    copy_to_target_and_divide_by_dictionary c8FS (PyVal.path c8File)
      (some (PyVal.path c8Root)) (some (PyVal.str "three")) 4 =
      (c8FS, Except.error PyErr.typeError) :=
  c8_type_check_before_mutation c8FS (PyVal.path c8File) (some (PyVal.path c8Root))
    (PyVal.str "three") 4 (fun _ h => PyVal.noConfusion h)

/-! ### Claim C9: enumeration of an invalid directory -/

/-- The C9 claim at one input: enumerating an invalid directory degrades to an
empty result instead of raising. -/
def getFilesClaimAt (fs : FS) (src : PyVal) : Prop :=
  (get_files fs src none).2 = Except.ok ([] : List PPath)

/-- Example filesystem for C9. -/
def c9FS : FS :=
  { cwd := { absolute := true, parts := ["home"] },
    files := [],
    dirs := [{ absolute := true, parts := [] },
             { absolute := true, parts := ["home"] }] }

/-- An argument that is not a valid directory in `c9FS`. -/
def c9Bad : PPath := { absolute := true, parts := ["nope"] }

/-- C9 counterexample: on an argument that is not a valid directory the
function raises `FileNotFoundError` after the failed change of working
directory; it does not return an empty sequence. -/
theorem c9_counterexample :
    (get_files c9FS (PyVal.path c9Bad) none).2 =
      Except.error PyErr.fileNotFoundError ∧
    ¬ getFilesClaimAt c9FS (PyVal.path c9Bad) := by
  refine ⟨rfl, ?_⟩
  intro h
  exact Except.noConfusion h

/-- C9 (amended): when the resolved source is not a directory (and the current
working directory is a real directory, so the source cannot coincide with it),
`get_files` logs, fails to change directory, and then raises
`FileNotFoundError`, leaving the filesystem untouched; no empty sequence is
returned. -/
theorem c9_invalid_directory_raises (fs : FS) (src : PPath)
    (hcwd : fs.isDir fs.cwd = true)
    (hnd : fs.isDir (resolvePath fs.cwd src) = false) :
    get_files fs (PyVal.path src) none = (fs, Except.error PyErr.fileNotFoundError) := by
  have hne : resolvePath fs.cwd src ≠ fs.cwd := by
    intro he
    rw [he, hcwd] at hnd
    exact Bool.noConfusion hnd
  simp only [get_files, get_files.getFilesChecked, get_files.getFilesOnPath]
  simp [hne, hnd]

/-- C9 witness: the amended theorem run on the concrete example. -/
theorem c9_witness :
    get_files c9FS (PyVal.path c9Bad) none =
      (c9FS, Except.error PyErr.fileNotFoundError) :=
  c9_invalid_directory_raises c9FS c9Bad (by decide) (by decide)

/-! ### Claim C10: the rotator boundary at construction time -/

/-- C10: immediately after construction the time boundary of the rotator lies
strictly after the construction instant (one day is added when the configured
time of day has already been reached), so the time trigger never fires for a
message stamped with the construction time, and with the pending size within
the limit `should_rotate` reports no rotation at all for such a message. -/
theorem c10_rotator_boundary (size : Nat) (at_time : PyTime) (now : PyDateTime)
    (hnh : now.hour < 24) (hnm : now.minute < 60) (hns : now.second < 60)
    (hah : at_time.hour < 24) (ham : at_time.minute < 60) (hasec : at_time.second < 60) :
    now.toMicros < (Rotator.init size at_time now).time_limit.toMicros ∧
    (Rotator.init size at_time now).timeTrigger now = false ∧
    ∀ msg_len file_size : Nat, file_size + msg_len ≤ size →
      (Rotator.init size at_time now).should_rotate msg_len file_size now =
        (false, Rotator.init size at_time now) := by
  have hlt : now.toMicros < (Rotator.init size at_time now).time_limit.toMicros := by
    unfold Rotator.init PyDateTime.replaceHMS PyDateTime.addOneDay PyDateTime.toMicros
    dsimp only
    split_ifs with h
    · dsimp only at h ⊢
      omega
    · dsimp only at h ⊢
      omega
  have hsz : (Rotator.init size at_time now).size_limit = size := by
    unfold Rotator.init
    dsimp only
    split_ifs <;> rfl
  refine ⟨hlt, ?_, ?_⟩
  · unfold Rotator.timeTrigger
    simp only [decide_eq_false_iff_not]
    omega
  · intro msg_len file_size hle
    unfold Rotator.should_rotate
    rw [if_neg (by rw [hsz]; omega)]
    rw [if_neg (by omega)]

/-- The construction instant used by the C10 witness. -/
def c10Now : PyDateTime :=
  { day := 19553, hour := 10, minute := 30, second := 0, micro := 123 }

/-- The configured rotation time of day used by the C10 witness: midnight, the
value used in `defineLoggers`. -/
def c10At : PyTime := { hour := 0, minute := 0, second := 0 }

/-- C10 witness: the boundary theorem run at a concrete construction instant
with the midnight rotation time and the 500 MB size limit. -/
theorem c10_witness :
    c10Now.toMicros < (Rotator.init 500000000 c10At c10Now).time_limit.toMicros ∧
    (Rotator.init 500000000 c10At c10Now).timeTrigger c10Now = false ∧
    (Rotator.init 500000000 c10At c10Now).should_rotate 5 100 c10Now =
      (false, Rotator.init 500000000 c10At c10Now) :=
  ⟨(c10_rotator_boundary 500000000 c10At c10Now (by decide) (by decide) (by decide)
      (by decide) (by decide) (by decide)).1,
   (c10_rotator_boundary 500000000 c10At c10Now (by decide) (by decide) (by decide)
      (by decide) (by decide) (by decide)).2.1,
   (c10_rotator_boundary 500000000 c10At c10Now (by decide) (by decide) (by decide)
      (by decide) (by decide) (by decide)).2.2 5 100 (by decide)⟩
